import Mathlib

/-!
Verification of the insight-example dashboard's event decoding and
aggregation logic, shallowly embedded from the four view components
(`UsdcTransfers.tsx`, `UsdcTransferChart.tsx`, `TopUsdcWallets`,
`UsdcVolumeChart`).

Modelling conventions:
* JavaScript numbers are modelled as exact rationals (`ℚ`); the float
  precision limit (amounts ≥ 2^53) is outside the scope of the claims.
* `parseInt(s, 16)` is modelled by `jsParseIntHex : String → Option Nat`,
  with `none` standing for `NaN` (no leading hex digit).  Claims about
  amounts carry parse-success hypotheses; `amountOf` uses the junk value 0
  where the source would produce `NaN`.
* The browser's local timezone is modelled as UTC: bucket labels are
  derived from the Unix timestamp directly.  No claim depends on the
  concrete offset.
* JavaScript `Array.prototype.sort` (stable since ES2019) is modelled by a
  stable insertion sort specialised to each comparator of the source.
* `Map` / plain-object accumulators (insertion-ordered in JS) are modelled
  by association lists that update the first matching key in place and
  append fresh keys at the end.
-/

/-- One raw event record of the API response's `data` array
(`block_timestamp`, `transaction_hash`, `data`, `topics`). -/
structure RawEvent where
  block_timestamp : Nat
  transaction_hash : String
  data : String
  topics : List String
  deriving Repr, DecidableEq

/-- The value of a hex digit, `none` for any other character. -/
def hexDigitVal (c : Char) : Option Nat :=
  if '0' ≤ c ∧ c ≤ '9' then some (c.toNat - '0'.toNat)
  else if 'a' ≤ c ∧ c ≤ 'f' then some (c.toNat - 'a'.toNat + 10)
  else if 'A' ≤ c ∧ c ≤ 'F' then some (c.toNat - 'A'.toNat + 10)
  else none

/-- Accumulate the value of a maximal leading run of hex digits. -/
def hexAccum : List Char → Nat → Nat
  | [], acc => acc
  | c :: cs, acc =>
    match hexDigitVal c with
    | some d => hexAccum cs (acc * 16 + d)
    | none => acc

/-- Number of leading hex digits. -/
def hexRunLength : List Char → Nat
  | [] => 0
  | c :: cs => match hexDigitVal c with
    | some _ => hexRunLength cs + 1
    | none => 0

/-- `parseInt(s, 16)`: an optional `0x`/`0X` prefix is skipped, then the
longest run of leading hex digits is parsed; `NaN` (here `none`) results
when that run is empty.  Sign and leading whitespace, never present at the
call sites, are not modelled. -/
def jsParseIntHex (s : String) : Option Nat :=
  let cs := s.data
  let cs := match cs with
    | '0' :: 'x' :: rest => rest
    | '0' :: 'X' :: rest => rest
    | l => l
  if hexRunLength cs = 0 then none else some (hexAccum cs 0)

/-- `parseInt(event.data.slice(2), 16) / 1e6`, the decoded USDC amount used
by all four views.  The `NaN` case is mapped to the junk value 0; every
theorem that inspects amounts assumes the parse succeeds. -/
def amountOf (e : RawEvent) : ℚ :=
  ((jsParseIntHex (e.data.drop 2)).getD 0 : ℚ) / 1000000

/-- `decodeAddress` of `UsdcTransfers.tsx` (and the inline address decode of
`TopUsdcWallets`): `"0x" + topic.slice(26)`. -/
def decodeAddress (topic : String) : String :=
  "0x" ++ topic.drop 26

/-- Two-digit zero padding, `String(n).padStart(2, '0')` for `n < 100`. -/
def pad2 (n : Nat) : String :=
  if n < 10 then "0" ++ toString n else toString n

/-- `toFixed(2)` on a non-negative exact rational: round to the nearest
hundredth (ties up) and print with exactly two decimals. -/
def toFixed2 (q : ℚ) : String :=
  let n : ℤ := round (q * 100)
  toString (n / 100) ++ "." ++ pad2 (n % 100).toNat

/-- `decodeAmount` of `UsdcTransfers.tsx`:
`(parseInt(data.slice(2), 16) / 1e6).toFixed(2)`; `none` models the `NaN`
parse outcome. -/
def decodeAmount (data : String) : Option String :=
  (jsParseIntHex (data.drop 2)).map (fun n => toFixed2 ((n : ℚ) / 1000000))

/-- The local-time `HH:mm` label of a Unix-second timestamp; shared shape of
`toLocaleTimeString(..., hour12: false)` in `UsdcTransferChart` and the
`getHours`/`getMinutes`/`padStart` formatting in `UsdcVolumeChart`, with the
local timezone modelled as UTC. -/
def minuteLabel (ts : Nat) : String :=
  pad2 (ts / 3600 % 24) ++ ":" ++ pad2 (ts / 60 % 60)

/-- `Number(s)` on a digit string, as used by `minute.split(':').map(Number)`;
junk value 0 outside that use. -/
def jsParseDecNat (s : String) : Nat :=
  s.data.foldl (fun acc c =>
    match hexDigitVal c with
    | some d => if d < 10 then acc * 10 + d else acc
    | none => acc) 0

/-- Minutes since midnight encoded by an `HH:mm` label: the sort key of both
chart views (`new Date('1970/01/01 ' + t).getTime()` and
`aHour * 60 + aMin`). -/
def labelMinutes (s : String) : Nat :=
  match s.split (fun c => c = ':') with
  | [h, m] => jsParseDecNat h * 60 + jsParseDecNat m
  | _ => 0

/-! ### UsdcTransfers.tsx — recent-transfers view -/

/-- The amount-descending sort
`data.data.sort((a, b) => amountB - amountA)` in `getUsdcTransfers` of
`UsdcTransfers.tsx`: a record precedes another exactly when its decoded
amount is at least as large; `Array.prototype.sort` is stable, which
insertion sort by this non-strict relation reproduces. -/
def sortTransfersByAmountDesc (l : List RawEvent) : List RawEvent :=
  List.insertionSort (fun a b => amountOf b ≤ amountOf a) l

/-- State of the `UsdcTransfers` component: `transfers`, `loading`,
`isRefreshing`.  The component declares no error state and its JSX renders
no error element. -/
structure TransfersState where
  transfers : List RawEvent
  loading : Bool
  isRefreshing : Bool
  deriving Repr, DecidableEq

/-- Initial state on mount: `useState([])`, `useState(true)`,
`useState(false)`. -/
def transfersInit : TransfersState :=
  { transfers := [], loading := true, isRefreshing := false }

/-- One completed run of `getUsdcTransfers` of `UsdcTransfers.tsx` on the
network outcome (`Except.error msg` models a rejected fetch / JSON parse):
success stores the amount-sorted records; the catch block only logs; the
finally block clears both loading flags. -/
def transfersFetch (net : Except String (List RawEvent)) (s : TransfersState) :
    TransfersState :=
  match net with
  | .ok events =>
    { transfers := sortTransfersByAmountDesc events, loading := false, isRefreshing := false }
  | .error _ =>
    { transfers := s.transfers, loading := false, isRefreshing := false }

/-- The user-visible error of the `UsdcTransfers` view: its JSX contains no
error display, so nothing is ever rendered. -/
def transfersRenderedError (_ : TransfersState) : Option String := none

/-! ### UsdcTransferChart.tsx — per-minute volume line chart -/

/-- A processed chart point of `UsdcTransferChart.tsx` (`timestamp` is the
`HH:mm` label, `amount` the summed USDC volume). -/
structure ChartData where
  timestamp : String
  amount : ℚ
  deriving Repr, DecidableEq

/-- The `.map` stage: label the event's minute and round its decoded amount
via `Number(amount.toFixed(2))`. -/
def chartPoint (e : RawEvent) : ChartData :=
  { timestamp := minuteLabel e.block_timestamp,
    amount := (round (amountOf e * 100) : ℤ) / 100 }

/-- The `.reduce` merge step: add into the first accumulated entry with the
same label, else push at the end. -/
def mergePoint : List ChartData → ChartData → List ChartData
  | [], c => [c]
  | p :: ps, c =>
    if p.timestamp = c.timestamp then
      { p with amount := p.amount + c.amount } :: ps
    else
      p :: mergePoint ps c

/-- The chronological `.sort` of the merged chart points (stable, key:
minutes since midnight reconstructed from the `HH:mm` label by
`new Date('1970/01/01 ' + t).getTime()`). -/
def sortChartData (l : List ChartData) : List ChartData :=
  List.insertionSort (fun a b => labelMinutes a.timestamp ≤ labelMinutes b.timestamp) l

/-- The `formattedData` pipeline of `getUsdcTransfers` in
`UsdcTransferChart.tsx`: map, reduce by minute, sort chronologically;
`data.data` empty (or absent) throws `'No transfer data received'`. -/
def chartProcess (events : List RawEvent) : Except String (List ChartData) :=
  if events.isEmpty then .error "No transfer data received"
  else .ok (sortChartData ((events.map chartPoint).foldl mergePoint []))

/-- State of the `UsdcTransferChart` component. -/
structure ChartState where
  chartData : List ChartData
  loading : Bool
  error : Option String
  isRefreshing : Bool
  deriving Repr, DecidableEq

/-- Initial state on mount. -/
def chartInit : ChartState :=
  { chartData := [], loading := true, error := none, isRefreshing := false }

/-- One completed run of `getUsdcTransfers` of `UsdcTransferChart.tsx`:
any thrown error (network failure or the empty-data throw) reaches the
catch block, which stores `error.message`; the finally block clears both
loading flags; the result set is only written on success. -/
def chartFetch (net : Except String (List RawEvent)) (s : ChartState) : ChartState :=
  match net.bind chartProcess with
  | .ok cd =>
    { chartData := cd, loading := false, error := none, isRefreshing := false }
  | .error msg =>
    { chartData := s.chartData, loading := false, error := some msg, isRefreshing := false }

/-- The user-visible error of the chart view: `Error: {error}` is rendered
exactly when the error state is set. -/
def chartRenderedError (s : ChartState) : Option String := s.error

/-! ### UsdcVolumeChart (src/unnamed/part_001) — per-minute count bar chart -/

/-- A processed point of the transaction-count chart (`minute` label,
`volume` = number of transfers in that minute). -/
structure VolumeData where
  minute : String
  volume : Nat
  deriving Repr, DecidableEq

/-- The `.reduce` step `acc[minute] = (acc[minute] || 0) + 1` on the
insertion-ordered accumulator object. -/
def bumpMinute : List (String × Nat) → String → List (String × Nat)
  | [], m => [(m, 1)]
  | (k, v) :: rest, m =>
    if k = m then (k, v + 1) :: rest else (k, v) :: bumpMinute rest m

/-- `volumeByMinute`: fold the events' minute labels into the accumulator.
Only `block_timestamp` is read; the other event fields are untouched. -/
def volumeByMinute (events : List RawEvent) : List (String × Nat) :=
  events.foldl (fun acc e => bumpMinute acc (minuteLabel e.block_timestamp)) []

/-- The chronological sort of `Object.entries(volumeByMinute)` (stable,
key `aHour * 60 + aMin` computed by `minute.split(':').map(Number)`). -/
def sortVolumeData (l : List VolumeData) : List VolumeData :=
  List.insertionSort (fun a b => labelMinutes a.minute ≤ labelMinutes b.minute) l

/-- The `sortedData` pipeline of `getVolumeData` in `UsdcVolumeChart`:
empty (or absent) `data.data` throws `'No transfer data received'`,
otherwise reduce by minute, convert entries, sort chronologically. -/
def volumeProcess (events : List RawEvent) : Except String (List VolumeData) :=
  if events.isEmpty then .error "No transfer data received"
  else .ok (sortVolumeData ((volumeByMinute events).map
    (fun p => { minute := p.1, volume := p.2 })))

/-- State of the `UsdcVolumeChart` component. -/
structure VolumeState where
  volumeData : List VolumeData
  loading : Bool
  isRefreshing : Bool
  error : Option String
  deriving Repr, DecidableEq

/-- Initial state on mount. -/
def volumeInit : VolumeState :=
  { volumeData := [], loading := true, isRefreshing := false, error := none }

/-- One completed run of `getVolumeData` of `UsdcVolumeChart`: the catch
block stores `error.message`, the finally block clears both loading flags,
the result set is only written on success. -/
def volumeFetch (net : Except String (List RawEvent)) (s : VolumeState) : VolumeState :=
  match net.bind volumeProcess with
  | .ok vd =>
    { volumeData := vd, loading := false, isRefreshing := false, error := none }
  | .error msg =>
    { volumeData := s.volumeData, loading := false, isRefreshing := false, error := some msg }

/-- The user-visible error of the count-chart view: `Error: {error}` is
rendered exactly when the error state is set. -/
def volumeRenderedError (s : VolumeState) : Option String := s.error

/-! ### TopUsdcWallets (src/unnamed/part_000) — top-wallets-by-volume view -/

/-- Aggregated per-wallet statistics (`WalletSummary` of `TopUsdcWallets`). -/
structure WalletSummary where
  address : String
  totalAmount : ℚ
  transferCount : Nat
  averageAmount : ℚ
  deriving Repr, DecidableEq

/-- One wallet update of `getTopWallets`: create the summary with zero
totals when the address is first seen, then add the amount to
`totalAmount`, increment `transferCount`, and recompute `averageAmount`.
The insertion-ordered `Map` is an association list updating the first
matching key in place and appending fresh keys at the end. -/
def updateWallet : List (String × WalletSummary) → String → ℚ →
    List (String × WalletSummary)
  | [], addr, amt =>
    [(addr, { address := addr, totalAmount := amt, transferCount := 1, averageAmount := amt / 1 })]
  | (k, w) :: rest, addr, amt =>
    if k = addr then
      (k, { address := w.address, totalAmount := w.totalAmount + amt,
            transferCount := w.transferCount + 1,
            averageAmount := (w.totalAmount + amt) / (w.transferCount + 1) }) :: rest
    else
      (k, w) :: updateWallet rest addr amt

/-- The per-event body of `data.data.forEach` in `getTopWallets`: decode the
amount and both addresses, then update the sending wallet's summary and
after that the receiving wallet's summary.  An event whose `topics` array
lacks index 1 or 2 makes the decode throw a `TypeError` before any update
of that event. -/
def walletStep (m : List (String × WalletSummary)) (e : RawEvent) :
    Except String (List (String × WalletSummary)) :=
  match e.topics.get? 1, e.topics.get? 2 with
  | some t1, some t2 =>
    .ok (updateWallet (updateWallet m (decodeAddress t1) (amountOf e))
      (decodeAddress t2) (amountOf e))
  | _, _ => .error "Cannot read properties of undefined (reading 'slice')"

/-- The aggregation loop over all events. -/
def aggregateWallets (events : List RawEvent) :
    Except String (List (String × WalletSummary)) :=
  events.foldlM walletStep []

/-- `.sort((a, b) => b.totalAmount - a.totalAmount)`: sort wallet summaries
by `totalAmount` descending, stably. -/
def sortWalletsByTotalDesc (l : List WalletSummary) : List WalletSummary :=
  List.insertionSort (fun a b => b.totalAmount ≤ a.totalAmount) l

/-- `sortedWallets` of `getTopWallets`: sort the map's values by volume and
`slice(0, 10)`. -/
def sortTop10 (l : List WalletSummary) : List WalletSummary :=
  (sortWalletsByTotalDesc l).take 10

/-- The whole `getTopWallets` body after the fetch: empty (or absent)
`data.data` throws `'No transfer data received'`, otherwise aggregate,
sort, truncate to 10. -/
def walletsProcess (events : List RawEvent) : Except String (List WalletSummary) :=
  if events.isEmpty then .error "No transfer data received"
  else (aggregateWallets events).map (fun m => sortTop10 (m.map Prod.snd))

/-- State of the `TopUsdcWallets` component. -/
structure WalletsState where
  walletStats : List WalletSummary
  loading : Bool
  isRefreshing : Bool
  error : Option String
  deriving Repr, DecidableEq

/-- Initial state on mount. -/
def walletsInit : WalletsState :=
  { walletStats := [], loading := true, isRefreshing := false, error := none }

/-- One completed run of `getTopWallets`: the catch block stores
`error.message`, the finally block clears both loading flags, the result
set is only written on success. -/
def walletsFetch (net : Except String (List RawEvent)) (s : WalletsState) : WalletsState :=
  match net.bind walletsProcess with
  | .ok ws =>
    { walletStats := ws, loading := false, isRefreshing := false, error := none }
  | .error msg =>
    { walletStats := s.walletStats, loading := false, isRefreshing := false, error := some msg }

/-- The user-visible error of the top-wallets view: `Error: {error}` is
rendered exactly when the error state is set. -/
def walletsRenderedError (s : WalletsState) : Option String := s.error

/-! ### Concrete inputs used by the closed theorems and witnesses -/

/-- A 66-character topic: `"0x"`, 24 zero-padding hex characters, then the
given 40-character address body. -/
def padTopic (body : String) : String :=
  "0x000000000000000000000000" ++ body

def topicA : String := padTopic "aaaaaaaaaaaaaaaaaaaaaaaaaaaaaaaaaaaaaaaa"

def topicB : String := padTopic "bbbbbbbbbbbbbbbbbbbbbbbbbbbbbbbbbbbbbbbb"

def topicC : String := padTopic "cccccccccccccccccccccccccccccccccccccccc"

def topicD : String := padTopic "dddddddddddddddddddddddddddddddddddddddd"

def addrA : String := decodeAddress topicA

/-- Event 1 of the synthetic batch: A sends 10 USDC (raw `0x989680`) to B. -/
def eventSendTen : RawEvent :=
  ⟨100, "h1", "0x989680", ["sig", topicA, topicB]⟩

/-- Event 2 of the synthetic batch: A sends 20 USDC (raw `0x1312D00`) to C. -/
def eventSendTwenty : RawEvent :=
  ⟨160, "h2", "0x1312D00", ["sig", topicA, topicC]⟩

/-- Event 3 of the synthetic batch: D sends 5 USDC (raw `0x4C4B40`) to A. -/
def eventReceiveFive : RawEvent :=
  ⟨220, "h3", "0x4C4B40", ["sig", topicD, topicA]⟩

/-- The synthetic batch of three events in which A sends 10, sends 20 and
receives 5. -/
def syntheticBatch : List RawEvent :=
  [eventSendTen, eventSendTwenty, eventReceiveFive]

/-- The newest record of `smallFirstResponse`: amount `5 / 10^6` USDC. -/
def newSmallEvent : RawEvent := ⟨300, "hNew", "0x05", ["sig", topicA, topicB]⟩

/-- The older record of `smallFirstResponse`: amount `7 / 10^6` USDC. -/
def oldLargeEvent : RawEvent := ⟨240, "hOld", "0x07", ["sig", topicC, topicD]⟩

/-- A response, in the API's newest-first order, whose first (newest) record
carries the smaller amount. -/
def smallFirstResponse : List RawEvent := [newSmallEvent, oldLargeEvent]

set_option maxRecDepth 100000

/-! ### Leaf evaluation lemmas shared by several proofs -/

/-- The decoded sender/receiver addresses of the synthetic topics. -/
theorem decode_synthetic_topics :
    decodeAddress topicA = "0xaaaaaaaaaaaaaaaaaaaaaaaaaaaaaaaaaaaaaaaa" ∧
    decodeAddress topicB = "0xbbbbbbbbbbbbbbbbbbbbbbbbbbbbbbbbbbbbbbbb" ∧
    decodeAddress topicC = "0xcccccccccccccccccccccccccccccccccccccccc" ∧
    decodeAddress topicD = "0xdddddddddddddddddddddddddddddddddddddddd" := by
  refine ⟨?_, ?_, ?_, ?_⟩ <;> decide

/-- The decoded amount of the synthetic A-sends-10 event. -/
theorem amountOf_eventSendTen : amountOf eventSendTen = 10 := by
  have h : jsParseIntHex ("0x989680".drop 2) = some 10000000 := by decide
  simp only [amountOf, show eventSendTen.data = "0x989680" from rfl, h, Option.getD_some]
  norm_num

/-- The decoded amount of the synthetic A-sends-20 event. -/
theorem amountOf_eventSendTwenty : amountOf eventSendTwenty = 20 := by
  have h : jsParseIntHex ("0x1312D00".drop 2) = some 20000000 := by decide
  simp only [amountOf, show eventSendTwenty.data = "0x1312D00" from rfl, h, Option.getD_some]
  norm_num

/-- The decoded amount of the synthetic D-sends-5-to-A event. -/
theorem amountOf_eventReceiveFive : amountOf eventReceiveFive = 5 := by
  have h : jsParseIntHex ("0x4C4B40".drop 2) = some 5000000 := by decide
  simp only [amountOf, show eventReceiveFive.data = "0x4C4B40" from rfl, h, Option.getD_some]
  norm_num

/-! ### C7 and C4 -/

/-- C7: the amount decode strips the 2-character prefix of the data field,
parses the remainder as a base-16 unsigned integer (`"0F4240"` parses to
`1000000`), divides by 10^6 and rounds to two decimals for display:
`decodeAmount "0x0F4240" = "1.00"`. -/
theorem decodeAmount_hex_0F4240 :
    decodeAmount "0x0F4240" = some "1.00" ∧ jsParseIntHex "0F4240" = some 1000000 := by
  constructor
  · have h : jsParseIntHex "0F4240" = some 1000000 := by decide
    have hd : "0x0F4240".drop 2 = "0F4240" := by decide
    have hq : ((1000000 : ℕ) : ℚ) / 1000000 * 100 = 100 := by norm_num
    simp [decodeAmount, toFixed2, hd, h, hq]
    decide
  · decide

/-- C4: the wallet aggregator updates a running summary for both the sender
and the receiver of each event, creating it with zero totals when first
seen.  On the synthetic batch in which A sends 10 to B, sends 20 to C and
receives 5 from D, A's summary ends with `transferCount = 3`,
`totalAmount = 35` and `averageAmount = 35/3`; the counterparties B and D
each end with a single recorded transfer. -/
theorem wallet_aggregation_synthetic_batch :
    ((aggregateWallets syntheticBatch).toOption.bind (fun m => m.lookup addrA)) =
      some ⟨addrA, 35, 3, 35 / 3⟩ ∧
    ((aggregateWallets syntheticBatch).toOption.bind
        (fun m => m.lookup (decodeAddress topicB))) =
      some ⟨decodeAddress topicB, 10, 1, 10⟩ ∧
    ((aggregateWallets syntheticBatch).toOption.bind
        (fun m => m.lookup (decodeAddress topicD))) =
      some ⟨decodeAddress topicD, 5, 1, 5⟩ := by
  have hA := decode_synthetic_topics.1
  have hB := decode_synthetic_topics.2.1
  have hC := decode_synthetic_topics.2.2.1
  have hD := decode_synthetic_topics.2.2.2
  have hBD : ("0xbbbbbbbbbbbbbbbbbbbbbbbbbbbbbbbbbbbbbbbb" =
      "0xdddddddddddddddddddddddddddddddddddddddd") = False := by decide
  have hCD : ("0xcccccccccccccccccccccccccccccccccccccccc" =
      "0xdddddddddddddddddddddddddddddddddddddddd") = False := by decide
  have hBC : ("0xbbbbbbbbbbbbbbbbbbbbbbbbbbbbbbbbbbbbbbbb" =
      "0xcccccccccccccccccccccccccccccccccccccccc") = False := by decide
  have hba : (("0xbbbbbbbbbbbbbbbbbbbbbbbbbbbbbbbbbbbbbbbb" ==
      "0xaaaaaaaaaaaaaaaaaaaaaaaaaaaaaaaaaaaaaaaa") = false) := by decide
  have hda : (("0xdddddddddddddddddddddddddddddddddddddddd" ==
      "0xaaaaaaaaaaaaaaaaaaaaaaaaaaaaaaaaaaaaaaaa") = false) := by decide
  have hdb : (("0xdddddddddddddddddddddddddddddddddddddddd" ==
      "0xbbbbbbbbbbbbbbbbbbbbbbbbbbbbbbbbbbbbbbbb") = false) := by decide
  have hdc : (("0xdddddddddddddddddddddddddddddddddddddddd" ==
      "0xcccccccccccccccccccccccccccccccccccccccc") = false) := by decide
  have hbind : ∀ (α β : Type) (a : α) (f : α → Except String β),
      (Except.ok a >>= f) = f a := fun _ _ _ _ => rfl
  refine ⟨?_, ?_, ?_⟩ <;>
  · simp only [aggregateWallets, syntheticBatch, List.foldlM, walletStep,
      show eventSendTen.topics.get? 1 = some topicA from rfl,
      show eventSendTen.topics.get? 2 = some topicB from rfl,
      show eventSendTwenty.topics.get? 1 = some topicA from rfl,
      show eventSendTwenty.topics.get? 2 = some topicC from rfl,
      show eventReceiveFive.topics.get? 1 = some topicD from rfl,
      show eventReceiveFive.topics.get? 2 = some topicA from rfl,
      hA, hB, hC, hD, amountOf_eventSendTen, amountOf_eventSendTwenty,
      amountOf_eventReceiveFive]
    simp only [hbind]
    norm_num [updateWallet, Except.toOption, Option.bind, addrA, hA, hB, hD,
      hBD, hCD, hBC, pure, Except.pure, List.lookup, hba, hda, hdb, hdc]

/-! ### C1: the stored transfers list is re-sorted by amount -/

/-- C1 (counterexample): the recent-transfers fetch does not preserve the
response's newest-first-by-block-number order — on a response whose newest
record carries the smaller decoded amount, the stored list reverses the
response's order. -/
theorem transfers_stored_list_reorders_response :
    (transfersFetch (.ok smallFirstResponse) transfersInit).transfers ≠
      smallFirstResponse := by
  have h1 : amountOf newSmallEvent = 5 / 1000000 := by
    have h : jsParseIntHex ("0x05".drop 2) = some 5 := by decide
    simp only [amountOf, show newSmallEvent.data = "0x05" from rfl, h, Option.getD_some]
    norm_num
  have h2 : amountOf oldLargeEvent = 7 / 1000000 := by
    have h : jsParseIntHex ("0x07".drop 2) = some 7 := by decide
    simp only [amountOf, show oldLargeEvent.data = "0x07" from rfl, h, Option.getD_some]
    norm_num
  have hcmp : ¬ (amountOf oldLargeEvent ≤ amountOf newSmallEvent) := by
    rw [h1, h2]; norm_num
  simp only [transfersFetch, sortTransfersByAmountDesc, smallFirstResponse,
    List.insertionSort, List.orderedInsert]
  rw [if_neg hcmp]
  decide

/-- C1 (amended): the list stored for display is the response's records
re-sorted by decoded amount: it is a permutation of the response's event
list, sorted in descending order of decoded amount (not the response's
newest-first-by-block-number order). -/
theorem transfers_stored_list_amount_sorted_perm :
    ∀ (events : List RawEvent) (s : TransfersState),
      ((transfersFetch (.ok events) s).transfers).Perm events ∧
      ((transfersFetch (.ok events) s).transfers).Sorted
        (fun a b => amountOf b ≤ amountOf a) := by
  intro events s
  constructor
  · simpa [transfersFetch, sortTransfersByAmountDesc]
      using List.perm_insertionSort (fun a b => amountOf b ≤ amountOf a) events
  · haveI : IsTotal RawEvent (fun a b => amountOf b ≤ amountOf a) :=
      ⟨fun a b => le_total (amountOf b) (amountOf a)⟩
    haveI : IsTrans RawEvent (fun a b => amountOf b ≤ amountOf a) :=
      ⟨fun _ _ _ h1 h2 => le_trans h2 h1⟩
    simpa [transfersFetch, sortTransfersByAmountDesc]
      using List.sorted_insertionSort (fun a b => amountOf b ≤ amountOf a) events

/-! ### C2: error handling on a failed fetch or decode -/

/-- C2 (counterexample): after a failed fetch the recent-transfers view
sets no error message — it has no error state and renders no error
element; its resulting state is exactly the one reached by a successful
fetch of an empty response, so the failure is invisible. -/
theorem transfers_view_failure_sets_no_error_message :
    transfersRenderedError (transfersFetch (.error "Failed to fetch") transfersInit) =
      none ∧
    transfersFetch (.error "Failed to fetch") transfersInit =
      transfersFetch (.ok []) transfersInit := by
  constructor <;> decide

/-- C2 (amended): in the volume-chart, count-chart and top-wallets views
any fetch or decode error moves the view from Loading to Failed — the
thrown message is stored as the error, both loading flags are cleared and
the result set is left unpopulated; the recent-transfers view also clears
its loading flags and leaves the result set unpopulated, but surfaces no
error message at all. -/
theorem fetch_failure_error_handling :
    (∀ (net : Except String (List RawEvent)) (s : ChartState) (msg : String),
        net.bind chartProcess = .error msg →
        chartFetch net s = ⟨s.chartData, false, some msg, false⟩) ∧
    (∀ (net : Except String (List RawEvent)) (s : VolumeState) (msg : String),
        net.bind volumeProcess = .error msg →
        volumeFetch net s = ⟨s.volumeData, false, false, some msg⟩) ∧
    (∀ (net : Except String (List RawEvent)) (s : WalletsState) (msg : String),
        net.bind walletsProcess = .error msg →
        walletsFetch net s = ⟨s.walletStats, false, false, some msg⟩) ∧
    (∀ (msg : String) (s : TransfersState),
        transfersFetch (.error msg) s = ⟨s.transfers, false, false⟩ ∧
        transfersRenderedError (transfersFetch (.error msg) s) = none) := by
  refine ⟨?_, ?_, ?_, ?_⟩
  · intro net s msg h; simp [chartFetch, h]
  · intro net s msg h; simp [volumeFetch, h]
  · intro net s msg h; simp [walletsFetch, h]
  · intro msg s; exact ⟨rfl, rfl⟩

/-- Witness for `fetch_failure_error_handling` at a concrete failed fetch. -/
theorem fetch_failure_error_handling_witness :
    chartFetch (.error "NetworkError") chartInit = ⟨[], false, some "NetworkError", false⟩ ∧
    volumeFetch (.error "NetworkError") volumeInit = ⟨[], false, false, some "NetworkError"⟩ ∧
    walletsFetch (.error "NetworkError") walletsInit = ⟨[], false, false, some "NetworkError"⟩ ∧
    transfersFetch (.error "NetworkError") transfersInit = ⟨[], false, false⟩ :=
  ⟨fetch_failure_error_handling.1 (.error "NetworkError") chartInit "NetworkError" rfl,
   fetch_failure_error_handling.2.1 (.error "NetworkError") volumeInit "NetworkError" rfl,
   fetch_failure_error_handling.2.2.1 (.error "NetworkError") walletsInit "NetworkError" rfl,
   (fetch_failure_error_handling.2.2.2 "NetworkError" transfersInit).1⟩

/-! ### C3: empty API response -/

/-- C3 (counterexample): an empty `data` array surfaces no
`EmptyResponse`-class error in the recent-transfers view — the view treats
it as a successful fetch, stores the empty list and renders no error. -/
theorem transfers_view_empty_response_no_error :
    transfersRenderedError (transfersFetch (.ok []) transfersInit) = none ∧
    transfersFetch (.ok []) transfersInit =
      { transfers := [], loading := false, isRefreshing := false } := by
  constructor <;> decide

/-- C3 (amended): in the volume-chart, count-chart and top-wallets views an
empty `data` array throws `'No transfer data received'`, which is caught
and stored as the view's error while the result set stays unpopulated
(empty when starting from the initial state) and nothing escapes the
handler; the recent-transfers view instead stores the empty list as a
successful result and surfaces no error. -/
theorem empty_response_error_handling :
    (∀ s : ChartState, chartFetch (.ok []) s =
      ⟨s.chartData, false, some "No transfer data received", false⟩) ∧
    (∀ s : VolumeState, volumeFetch (.ok []) s =
      ⟨s.volumeData, false, false, some "No transfer data received"⟩) ∧
    (∀ s : WalletsState, walletsFetch (.ok []) s =
      ⟨s.walletStats, false, false, some "No transfer data received"⟩) ∧
    (chartFetch (.ok []) chartInit).chartData = [] ∧
    (volumeFetch (.ok []) volumeInit).volumeData = [] ∧
    (walletsFetch (.ok []) walletsInit).walletStats = [] ∧
    transfersFetch (.ok []) transfersInit = ⟨[], false, false⟩ ∧
    transfersRenderedError (transfersFetch (.ok []) transfersInit) = none := by
  refine ⟨?_, ?_, ?_, rfl, rfl, rfl, rfl, rfl⟩
  · intro s; simp [chartFetch, show ((Except.ok [] : Except String (List RawEvent)).bind
      chartProcess) = .error "No transfer data received" from rfl]
  · intro s; simp [volumeFetch, show ((Except.ok [] : Except String (List RawEvent)).bind
      volumeProcess) = .error "No transfer data received" from rfl]
  · intro s; simp [walletsFetch, show ((Except.ok [] : Except String (List RawEvent)).bind
      walletsProcess) = .error "No transfer data received" from rfl]

/-! ### C5: top-10 truncation -/

/-- C5: on a list of 15 wallet summaries whose `totalAmount`s are strictly
decreasing, the sort-and-truncate stage of `getTopWallets` returns exactly
10 summaries — the first 10 of the list, which are the 10 largest by
`totalAmount` — still in strictly descending order, and every discarded
summary is strictly smaller than every kept one. -/
theorem top10_of_strictly_decreasing_15 :
    ∀ l : List WalletSummary, l.length = 15 →
      List.Chain' (fun a b => b.totalAmount < a.totalAmount) l →
      sortTop10 l = l.take 10 ∧ (sortTop10 l).length = 10 ∧
      List.Chain' (fun a b => b.totalAmount < a.totalAmount) (sortTop10 l) ∧
      (∀ x ∈ l.drop 10, ∀ y ∈ sortTop10 l, x.totalAmount < y.totalAmount) := by
  intro l hlen hchain
  haveI : IsTrans WalletSummary (fun a b => b.totalAmount < a.totalAmount) :=
    ⟨fun _ _ _ h1 h2 => lt_trans h2 h1⟩
  have hpw : List.Pairwise (fun a b => b.totalAmount < a.totalAmount) l :=
    List.chain'_iff_pairwise.mp hchain
  have hsorted : List.Sorted (fun a b => b.totalAmount ≤ a.totalAmount) l :=
    hpw.imp (fun h => le_of_lt h)
  have hs : sortWalletsByTotalDesc l = l := hsorted.insertionSort_eq
  have heq : sortTop10 l = l.take 10 := by
    unfold sortTop10
    rw [hs]
  refine ⟨heq, ?_, ?_, ?_⟩
  · rw [heq, List.length_take, hlen]
    decide
  · rw [heq]
    exact hchain.take 10
  · intro x hx y hy
    rw [heq] at hy
    have hpw2 : List.Pairwise (fun a b => b.totalAmount < a.totalAmount)
        (l.take 10 ++ l.drop 10) := by
      rw [List.take_append_drop]
      exact hpw
    exact (List.pairwise_append.mp hpw2).2.2 y hy x hx

/-- The 15 wallet summaries with strictly decreasing totals `15, 14, …, 1`
used to witness the top-10 truncation. -/
def fifteenWallets : List WalletSummary :=
  (List.range 15).map (fun i => ⟨"w" ++ toString i, (15 - i : ℕ), 1, (15 - i : ℕ)⟩)

/-- Witness for `top10_of_strictly_decreasing_15` on `fifteenWallets`. -/
theorem top10_of_strictly_decreasing_15_witness :
    sortTop10 fifteenWallets = fifteenWallets.take 10 ∧
    (sortTop10 fifteenWallets).length = 10 ∧
    List.Chain' (fun a b => b.totalAmount < a.totalAmount) (sortTop10 fifteenWallets) ∧
    (∀ x ∈ fifteenWallets.drop 10, ∀ y ∈ sortTop10 fifteenWallets,
      x.totalAmount < y.totalAmount) :=
  top10_of_strictly_decreasing_15 fifteenWallets (by decide)
    (by simp [fifteenWallets, List.range, List.range.loop, List.chain'_cons]; norm_num)

/-! ### C8: address decode -/

/-- C8: the address decode drops the first 26 characters of a topic (the
`"0x"` prefix plus 24 padding characters) and prepends `"0x"`; on any
66-character topic the result is `"0x"` followed by exactly the topic's
last 40 characters. -/
theorem decodeAddress_wellformed_topic :
    ∀ t : String, t.length = 66 →
      (decodeAddress t).data = '0' :: 'x' :: t.data.drop 26 ∧
      (t.data.drop 26).length = 40 ∧
      t.data.drop 26 <:+ t.data := by
  intro t ht
  refine ⟨?_, ?_, List.drop_suffix 26 t.data⟩
  · show ("0x" ++ t.drop 26).data = _
    rw [String.data_append, String.data_drop]
    rfl
  · rw [List.length_drop, show t.data.length = 66 from ht]

/-- Witness for `decodeAddress_wellformed_topic` on the concrete topic
`topicA`. -/
theorem decodeAddress_wellformed_topic_witness :
    (decodeAddress topicA).data = '0' :: 'x' :: topicA.data.drop 26 ∧
    (topicA.data.drop 26).length = 40 ∧
    topicA.data.drop 26 <:+ topicA.data :=
  decodeAddress_wellformed_topic topicA (by decide)

/-! ### C6: time-bucket merging -/

/-- C6: two events whose block timestamps map to the same local `HH:mm`
label are merged into a single bucket — in the volume chart the bucket's
value is the sum of the two decoded (two-decimal-rounded) amounts, and in
the count chart the bucket's value is 2. -/
theorem same_minute_events_merge :
    ∀ e1 e2 : RawEvent,
      minuteLabel e1.block_timestamp = minuteLabel e2.block_timestamp →
      chartProcess [e1, e2] =
        .ok [⟨minuteLabel e1.block_timestamp,
          (chartPoint e1).amount + (chartPoint e2).amount⟩] ∧
      volumeProcess [e1, e2] =
        .ok [⟨minuteLabel e1.block_timestamp, 2⟩] := by
  intro e1 e2 h
  constructor
  · simp [chartProcess, chartPoint, mergePoint, sortChartData, h]
  · simp [volumeProcess, volumeByMinute, bumpMinute, sortVolumeData, h]

/-- First of two synthetic events in minute `00:01` (timestamp 60). -/
def sameMinuteEventOne : RawEvent := ⟨60, "t1", "0x0A", ["sig", topicA, topicB]⟩

/-- Second of two synthetic events in minute `00:01` (timestamp 90). -/
def sameMinuteEventTwo : RawEvent := ⟨90, "t2", "0x14", ["sig", topicC, topicD]⟩

/-- Witness for `same_minute_events_merge` on two concrete events 30
seconds apart inside the same minute. -/
theorem same_minute_events_merge_witness :
    chartProcess [sameMinuteEventOne, sameMinuteEventTwo] =
      .ok [⟨minuteLabel sameMinuteEventOne.block_timestamp,
        (chartPoint sameMinuteEventOne).amount + (chartPoint sameMinuteEventTwo).amount⟩] ∧
    volumeProcess [sameMinuteEventOne, sameMinuteEventTwo] =
      .ok [⟨minuteLabel sameMinuteEventOne.block_timestamp, 2⟩] :=
  same_minute_events_merge sameMinuteEventOne sameMinuteEventTwo (by decide)

/-! ### C9: self-transfers update the same summary twice -/

/-- The running `totalAmount` recorded for an address (0 when absent). -/
def walletTotal (m : List (String × WalletSummary)) (addr : String) : ℚ :=
  ((m.lookup addr).map WalletSummary.totalAmount).getD 0

/-- The running `transferCount` recorded for an address (0 when absent). -/
def walletCount (m : List (String × WalletSummary)) (addr : String) : Nat :=
  ((m.lookup addr).map WalletSummary.transferCount).getD 0

/-- One `updateWallet` call adds the amount to the address's running total. -/
theorem walletTotal_updateWallet (m : List (String × WalletSummary))
    (addr : String) (amt : ℚ) :
    walletTotal (updateWallet m addr amt) addr = walletTotal m addr + amt := by
  induction m with
  | nil => simp [walletTotal, updateWallet, List.lookup]
  | cons p rest ih =>
    obtain ⟨k, w⟩ := p
    by_cases hk : k = addr
    · subst hk
      simp [walletTotal, updateWallet, List.lookup]
    · have hne : (addr == k) = false := beq_eq_false_iff_ne.mpr (Ne.symm hk)
      simp only [walletTotal, updateWallet, if_neg hk, List.lookup, hne]
      simpa only [walletTotal] using ih

/-- One `updateWallet` call increments the address's transfer count. -/
theorem walletCount_updateWallet (m : List (String × WalletSummary))
    (addr : String) (amt : ℚ) :
    walletCount (updateWallet m addr amt) addr = walletCount m addr + 1 := by
  induction m with
  | nil => simp [walletCount, updateWallet, List.lookup]
  | cons p rest ih =>
    obtain ⟨k, w⟩ := p
    by_cases hk : k = addr
    · subst hk
      simp [walletCount, updateWallet, List.lookup]
    · have hne : (addr == k) = false := beq_eq_false_iff_ne.mpr (Ne.symm hk)
      simp only [walletCount, updateWallet, if_neg hk, List.lookup, hne]
      simpa only [walletCount] using ih

/-- C9: for an event whose decoded sender address equals its decoded
receiver address, the per-event body of the wallet aggregation updates the
single shared summary twice — `transferCount` grows by 2 and `totalAmount`
by twice the event's decoded amount. -/
theorem self_transfer_double_update :
    ∀ (m : List (String × WalletSummary)) (e : RawEvent) (t1 t2 : String),
      e.topics.get? 1 = some t1 → e.topics.get? 2 = some t2 →
      decodeAddress t1 = decodeAddress t2 →
      ∀ m', walletStep m e = .ok m' →
        walletTotal m' (decodeAddress t1) =
          walletTotal m (decodeAddress t1) + 2 * amountOf e ∧
        walletCount m' (decodeAddress t1) = walletCount m (decodeAddress t1) + 2 := by
  intro m e t1 t2 h1 h2 heq m' hstep
  rw [walletStep, h1, h2] at hstep
  have hm' : m' = updateWallet (updateWallet m (decodeAddress t1) (amountOf e))
      (decodeAddress t2) (amountOf e) := by
    cases hstep
    rfl
  subst hm'
  rw [← heq]
  constructor
  · rw [walletTotal_updateWallet, walletTotal_updateWallet]
    ring
  · rw [walletCount_updateWallet, walletCount_updateWallet]

/-- A synthetic self-transfer: A sends `10 / 10^6` USDC to itself. -/
def selfTransferEvent : RawEvent := ⟨400, "hSelf", "0x0A", ["sig", topicA, topicA]⟩

/-- Witness for `self_transfer_double_update` on a concrete self-transfer
applied to the empty wallet map. -/
theorem self_transfer_double_update_witness :
    walletTotal (updateWallet (updateWallet [] (decodeAddress topicA)
        (amountOf selfTransferEvent)) (decodeAddress topicA) (amountOf selfTransferEvent))
      (decodeAddress topicA) =
      walletTotal [] (decodeAddress topicA) + 2 * amountOf selfTransferEvent ∧
    walletCount (updateWallet (updateWallet [] (decodeAddress topicA)
        (amountOf selfTransferEvent)) (decodeAddress topicA) (amountOf selfTransferEvent))
      (decodeAddress topicA) = walletCount [] (decodeAddress topicA) + 2 :=
  self_transfer_double_update [] selfTransferEvent topicA topicA rfl rfl rfl _ rfl

/-! ### C10: the count chart reads only the timestamps -/

/-- The count-by-minute accumulator depends only on the events' timestamps. -/
theorem volumeByMinute_eq_of_timestamps :
    ∀ (l1 l2 : List RawEvent) (acc : List (String × Nat)),
      l1.map RawEvent.block_timestamp = l2.map RawEvent.block_timestamp →
      l1.foldl (fun acc e => bumpMinute acc (minuteLabel e.block_timestamp)) acc =
        l2.foldl (fun acc e => bumpMinute acc (minuteLabel e.block_timestamp)) acc := by
  intro l1
  induction l1 with
  | nil => intro l2 acc h; cases l2 <;> simp_all
  | cons e1 rest ih =>
    intro l2 acc h
    cases l2 with
    | nil => simp_all
    | cons e2 rest2 =>
      simp only [List.map, List.cons.injEq] at h
      simp only [List.foldl, h.1]
      exact ih rest2 _ h.2

/-- C10: the count-by-minute chart output depends only on the events'
`block_timestamp` fields — two responses whose `data` arrays carry
identical timestamp sequences but arbitrary `data`, `transaction_hash` and
`topics` fields produce identical sorted chart data. -/
theorem count_chart_depends_only_on_timestamps :
    ∀ l1 l2 : List RawEvent,
      l1.map RawEvent.block_timestamp = l2.map RawEvent.block_timestamp →
      volumeProcess l1 = volumeProcess l2 := by
  intro l1 l2 h
  have hlen : l1.length = l2.length := by
    have := congrArg List.length h
    simpa using this
  rw [volumeProcess, volumeProcess, volumeByMinute, volumeByMinute,
    volumeByMinute_eq_of_timestamps l1 l2 [] h]
  cases l1 with
  | nil => cases l2 with
    | nil => rfl
    | cons b bs => simp at hlen
  | cons a as => cases l2 with
    | nil => simp at hlen
    | cons b bs => rfl

/-- Two responses with equal timestamps but different hashes, data and
topics, witnessing `count_chart_depends_only_on_timestamps`. -/
def timestampsOnlyResponseA : List RawEvent :=
  [⟨60, "x1", "0x0A", ["sig", topicA, topicB]⟩, ⟨200, "x2", "0x14", ["sig", topicC, topicD]⟩]

/-- The second response of the `C10` witness pair. -/
def timestampsOnlyResponseB : List RawEvent :=
  [⟨60, "y1", "0xFF", ["sig", topicC, topicA]⟩, ⟨200, "y2", "0x01", ["other", topicB, topicD]⟩]

/-- Witness for `count_chart_depends_only_on_timestamps` on the concrete
response pair. -/
theorem count_chart_depends_only_on_timestamps_witness :
    volumeProcess timestampsOnlyResponseA = volumeProcess timestampsOnlyResponseB :=
  count_chart_depends_only_on_timestamps timestampsOnlyResponseA timestampsOnlyResponseB rfl
